import Mathlib

/-!
Verification of the per-command processing pipeline of `BedrockNode`
(`BedrockNode.cpp`): the peek phase (`_peekCommand`), the process phase
(`_processCommand`), command cleanup (`_cleanCommand`) and the severity
classification of caught error strings.

The pipeline's collaborators (the SQL engine, the plugins, the libstuff
string helpers) are external to the translated unit; they are modelled as
explicit state and behaviour oracles:
  - a plugin is a record carrying the outcome of its `peekCommand` /
    `processCommand` hooks (either a thrown string or a claimed flag) and
    the SQL it accumulates into the open transaction when its process hook
    runs;
  - the SQL handle is a record of the transaction state plus oracle flags
    saying whether `beginTransaction` / `prepare` succeed, and ghost
    counters recording how often each primitive was invoked;
  - log emission (`SALERT`/`SWARN`/`SHMMM`/`SINFO`/`SERROR`) is recorded as
    a list of (severity, message) events in the result;
  - the `upgradeDatabase` hook invocations of the `UpgradeDatabase` branch
    are recorded (plugin names, in invocation order) in the result.
-/

/-- Logging severity tiers, one per libstuff logging macro used in the
translated unit: `SALERT`, `SWARN`, `SHMMM`, `SINFO`, `SERROR`. -/
inductive Severity where
  | alert
  | warn
  | hmmm
  | info
  | err
deriving DecidableEq, Repr

deriving instance DecidableEq for Except

/-- Structured request/response message (libstuff `SData`, external
collaborator): a method line plus a raw content body. -/
structure SData where
  methodLine : String
  content : String
deriving DecidableEq, Repr

/-- Serialization of an `SData` message, used only inside log text
(`request.serialize()`): modelled as method line plus body. -/
def SData.serialize (d : SData) : String :=
  d.methodLine ++ "\n" ++ d.content

/-- Ordered key/value table (libstuff `STable`, external collaborator). -/
abbrev STable := List (String × String)

/-- Quoting of a JSON string (external collaborator, used by
`SComposeJSONObject`). -/
def SToJSON (s : String) : String :=
  "\"" ++ s ++ "\""

/-- Composition of an `STable` into a JSON object string (libstuff
`SComposeJSONObject`, external collaborator). -/
def SComposeJSONObject (t : STable) : String :=
  "\x7b" ++ String.intercalate "," (t.map (fun kv => SToJSON kv.fst ++ ":" ++ SToJSON kv.snd)) ++ "\x7d"

/-- Scan for an occurrence of `sub` at any position of the character
list. -/
def containsAux (sub : List Char) : List Char → Bool
  | [] => sub.isPrefixOf []
  | c :: rest => sub.isPrefixOf (c :: rest) || containsAux sub rest

/-- Substring containment test (libstuff `SContains`). -/
def SContains (s sub : String) : Bool :=
  containsAux sub.toList s.toList

/-- String prefix test (libstuff `SStartsWith`). -/
def SStartsWith (s p : String) : Bool :=
  p.toList.isPrefixOf s.toList

/-- Lower-casing of a string, character by character. -/
def strToLower (s : String) : List Char :=
  s.toList.map Char.toLower

/-- Case-insensitive string equality (libstuff `SIEquals`). -/
def SIEquals (s t : String) : Bool :=
  strToLower s == strToLower t

/-- Severity classification of a caught error string, as performed by the
identical `catch (const char* e)` blocks of `_peekCommand` (lines 123-137)
and `_processCommand` (lines 215-230): marker substrings first, then the
`SStartsWith(e, "50")` check, else informational. -/
def classifySeverity (e : String) : Severity :=
  if SContains e "_ALERT_" then Severity.alert
  else if SContains e "_WARN_" then Severity.warn
  else if SContains e "_HMMM_" then Severity.hmmm
  else if SStartsWith e "50" then Severity.alert
  else Severity.info

/-- An outbound HTTPS sub-request held by a command
(`command->httpsRequest`): whether its owner back-reference is set, and
its `fullResponse` (used in the error log text). -/
structure HttpsRequest where
  hasOwner : Bool
  fullResponse : SData
deriving DecidableEq, Repr

/-- The unit of work (`BedrockNode::Command`): request, response, the
`jsonContent` table plugins populate, and an optional owned outbound
sub-request. -/
structure Command where
  request : SData
  response : SData
  jsonContent : STable
  httpsRequest : Option HttpsRequest
deriving DecidableEq, Repr

/-- A registered plugin (`BedrockPlugin`, external collaborator), modelled
as a behaviour oracle: its name, enabled flag, the outcome of its
`peekCommand` and `processCommand` hooks (`Except.error e` models the hook
throwing the string `e`; `Except.ok b` models it returning `b`), and the
SQL text it accumulates into the open transaction when its process hook is
invoked. -/
structure BedrockPlugin where
  name : String
  enabled : Bool
  peekResult : Except String Bool
  processResult : Except String Bool
  processQuery : String
deriving DecidableEq, Repr

/-- The SQL handle (`SQLite`, external collaborator): transaction state,
the accumulated uncommitted query, oracle flags for whether
`beginTransaction` and `prepare` succeed, and ghost counters of how often
each primitive was invoked. -/
structure SQLite where
  transactionOpen : Bool
  uncommittedQuery : String
  beginWillSucceed : Bool
  prepareWillSucceed : Bool
  beginCount : Nat
  rollbackCount : Nat
  prepareCount : Nat
deriving DecidableEq, Repr

/-- Transaction begin primitive: returns whether it succeeded and the new
handle state. -/
def SQLite.beginTransaction (db : SQLite) : Bool × SQLite :=
  if db.beginWillSucceed then
    (true, { db with transactionOpen := true, beginCount := db.beginCount + 1 })
  else
    (false, { db with beginCount := db.beginCount + 1 })

/-- Transaction rollback primitive: closes the transaction and discards
the uncommitted query. -/
def SQLite.rollback (db : SQLite) : SQLite :=
  { db with transactionOpen := false, uncommittedQuery := "",
            rollbackCount := db.rollbackCount + 1 }

/-- Transaction prepare primitive: returns whether it succeeded and the
new handle state. -/
def SQLite.prepare (db : SQLite) : Bool × SQLite :=
  if db.prepareWillSucceed then
    (true, { db with prepareCount := db.prepareCount + 1 })
  else
    (false, { db with prepareCount := db.prepareCount + 1 })

/-- Result of `_peekCommand`: the returned flag, the command's response
after the call, the log events emitted, and (ghost) the error string
caught by the catch block, if any. -/
structure PeekResult where
  ret : Bool
  response : SData
  logs : List (Severity × String)
  caught : Option String
deriving DecidableEq, Repr

/-- Result of `_processCommand`: the SQL handle and the command's response
after the call, the log events emitted, the names of plugins whose
`upgradeDatabase` hook was invoked (in order), and (ghost) the error
string caught by the catch block, if any. -/
structure ProcessResult where
  db : SQLite
  response : SData
  logs : List (Severity × String)
  upgraded : List String
  caught : Option String
deriving DecidableEq, Repr

/-- Log message built by the catch block of `_peekCommand` (line 125). -/
def peekErrMsg (request : SData) (e : String) : String :=
  "Error processing read-only command \x27" ++ request.methodLine ++ "\x27 (" ++ e ++
    "), ignoring: " ++ request.serialize

/-- Log message built by the catch block of `_processCommand` (line 218). -/
def processErrMsg (request : SData) (e : String) : String :=
  "Error processing command \x27" ++ request.methodLine ++ "\x27 (" ++ e ++
    "), ignoring: " ++ request.serialize

/-- The plugin loop of `_peekCommand` (lines 92-102): walk the registered
plugins in order; an enabled plugin's peek hook may throw (propagated) or
claim the command (stop; later plugins are not consulted). -/
def findClaimerPeek : List BedrockPlugin → Except String (Option BedrockPlugin)
  | [] => Except.ok none
  | p :: rest =>
    if p.enabled then
      match p.peekResult with
      | Except.error e => Except.error e
      | Except.ok true => Except.ok (some p)
      | Except.ok false => findClaimerPeek rest
    else findClaimerPeek rest

/-- The plugin loop of `_processCommand` (lines 172-182): walk the
registered plugins in order; an enabled plugin's process hook first
accumulates its SQL into the open transaction, then may throw (propagated)
or claim the command (stop). -/
def findClaimerProcess : List BedrockPlugin → SQLite → SQLite × Except String (Option BedrockPlugin)
  | [], db => (db, Except.ok none)
  | p :: rest, db =>
    if p.enabled then
      let db1 := { db with uncommittedQuery := db.uncommittedQuery ++ p.processQuery }
      match p.processResult with
      | Except.error e => (db1, Except.error e)
      | Except.ok true => (db1, Except.ok (some p))
      | Except.ok false => findClaimerProcess rest db1
    else findClaimerProcess rest db

/-- The shared content-encoding block (`_peekCommand` lines 113-122,
`_processCommand` lines 204-213): if `content` is non-empty, compose it to
JSON; if that differs from the existing response body, replace the body,
warning first when the existing body was non-empty. Returns the updated
response and the warn events emitted. -/
def applyContent (request response : SData) (content : STable) : SData × List (Severity × String) :=
  if content.isEmpty then (response, [])
  else
    let newContent := SComposeJSONObject content
    if response.content = newContent then (response, [])
    else if response.content = "" then ({ response with content := newContent }, [])
    else ({ response with content := newContent },
          [(Severity.warn, "Replacing existing response content in " ++ request.methodLine)])

/-- Read-only peek phase (`BedrockNode::_peekCommand`, lines 81-142). -/
def _peekCommand (command : Command) (plugins : List BedrockPlugin) : PeekResult :=
  let request := command.request
  let content := command.jsonContent
  let response := { command.response with methodLine := "200 OK" }
  match findClaimerPeek plugins with
  | Except.error e =>
      { ret := true
        response := { response with methodLine := e }
        logs := [(classifySeverity e, peekErrMsg request e)]
        caught := some e }
  | Except.ok none =>
      { ret := false
        response := response
        logs := [(Severity.info,
          "Command \x27" ++ request.methodLine ++ "\x27 is not peekable, queuing for processing.")]
        caught := none }
  | Except.ok (some p) =>
      let logs :=
        [(Severity.info,
            "Plugin \x27" ++ p.name ++ "\x27 peeked command \x27" ++ request.methodLine ++ "\x27"),
         (Severity.info,
            "Responding \x27" ++ response.methodLine ++ "\x27 to read-only \x27" ++
              request.methodLine ++ "\x27.")]
      let rw := applyContent request response content
      { ret := true, response := rw.fst, logs := logs ++ rw.snd, caught := none }

/-- The catch block of `_processCommand` (lines 215-231): roll back, build
and classify the log message, set the response status line to the error
text. -/
def processCatch (db : SQLite) (request response : SData) (upgraded : List String)
    (logs : List (Severity × String)) (e : String) : ProcessResult :=
  { db := db.rollback
    response := { response with methodLine := e }
    logs := logs ++ [(classifySeverity e, processErrMsg request e)]
    upgraded := upgraded
    caught := some e }

/-- The tail of the try block of `_processCommand` (lines 192-213): roll
back an empty transaction, otherwise prepare (throwing
"501 Failed to prepare transaction" on failure), then encode `content`
into the response. -/
def finishProcess (db : SQLite) (request response : SData) (content : STable)
    (upgraded : List String) (logs : List (Severity × String)) : ProcessResult :=
  let success := fun (db2 : SQLite) =>
    let logs1 := logs ++ [(Severity.info,
      "Responding \x27" ++ response.methodLine ++ "\x27 to \x27" ++ request.methodLine ++ "\x27.")]
    let rw := applyContent request response content
    ({ db := db2, response := rw.fst, logs := logs1 ++ rw.snd,
       upgraded := upgraded, caught := none } : ProcessResult)
  if db.uncommittedQuery = "" then
    success db.rollback
  else
    match db.prepare with
    | (false, dbp) => processCatch dbp request response upgraded logs "501 Failed to prepare transaction"
    | (true, dbp) => success dbp

/-- Full process phase (`BedrockNode::_processCommand`, lines 144-232). -/
def _processCommand (db : SQLite) (command : Command) (plugins : List BedrockPlugin) : ProcessResult :=
  let request := command.request
  let response := command.response
  let content := command.jsonContent
  match db.beginTransaction with
  | (false, db1) =>
      processCatch db1 request response [] [] "501 Failed to begin transaction"
  | (true, db1) =>
      if SIEquals request.methodLine "UpgradeDatabase" then
        let upgraded := (plugins.filter (fun p => p.enabled)).map (fun p => p.name)
        let logs := [(Severity.info, "Upgrading database"),
                     (Severity.info, "Finished upgrading database")]
        finishProcess db1 request response content upgraded logs
      else
        match findClaimerProcess plugins db1 with
        | (db2, Except.error e) =>
            processCatch db2 request response [] [] e
        | (db2, Except.ok none) =>
            processCatch db2 request response []
              [(Severity.warn, "Command \x27" ++ request.methodLine ++ "\x27 does not exist.")]
              "430 Unrecognized command"
        | (db2, Except.ok (some p)) =>
            finishProcess db2 request response content []
              [(Severity.info,
                "Plugin \x27" ++ p.name ++ "\x27 processed command \x27" ++ request.methodLine ++ "\x27")]

/-- Result of `_cleanCommand`: the command after cleanup, the sub-requests
whose owner was notified to close them (in order), and the log events
emitted. -/
structure CleanResult where
  command : Command
  closed : List HttpsRequest
  logs : List (Severity × String)
deriving DecidableEq, Repr

/-- Command cleanup (`BedrockNode::_cleanCommand`, lines 240-249): if the
command holds a sub-request, notify its owner to close it when the owner
reference is present (log an error otherwise), then clear the reference. -/
def _cleanCommand (command : Command) : CleanResult :=
  match command.httpsRequest with
  | none => { command := command, closed := [], logs := [] }
  | some req =>
      if req.hasOwner then
        { command := { command with httpsRequest := none }
          closed := [req]
          logs := [] }
      else
        { command := { command with httpsRequest := none }
          closed := []
          logs := [(Severity.err,
            "No owner for this https request " ++ req.fullResponse.methodLine)] }

/-- Concrete SQL handle used as a test input: fresh counters, both
transaction primitives set to succeed. -/
def dbW : SQLite :=
  { transactionOpen := false, uncommittedQuery := "", beginWillSucceed := true
    prepareWillSucceed := true, beginCount := 0, rollbackCount := 0, prepareCount := 0 }

/-- Concrete command used as a test input: method "Bogus", empty content. -/
def cmdW : Command :=
  { request := { methodLine := "Bogus", content := "" }
    response := { methodLine := "", content := "" }
    jsonContent := [], httpsRequest := none }

/-- Concrete command used as a test input: method "Echo", empty content. -/
def cmdEcho : Command :=
  { request := { methodLine := "Echo", content := "" }
    response := { methodLine := "", content := "" }
    jsonContent := [], httpsRequest := none }

/-- Concrete command used as a test input: the schema-upgrade command. -/
def cmdUpgrade : Command :=
  { request := { methodLine := "UpgradeDatabase", content := "" }
    response := { methodLine := "", content := "" }
    jsonContent := [], httpsRequest := none }

/-- Concrete command used as a test input: the schema-upgrade command in
capital letters. -/
def cmdUpgradeCaps : Command :=
  { request := { methodLine := "UPGRADEDATABASE", content := "" }
    response := { methodLine := "", content := "" }
    jsonContent := [], httpsRequest := none }

/-- Concrete command used as a test input: non-empty content table, empty
existing response body. -/
def cmdContent : Command :=
  { request := { methodLine := "Fetch", content := "" }
    response := { methodLine := "", content := "" }
    jsonContent := [("a", "b")], httpsRequest := none }

/-- Concrete command used as a test input: non-empty content table and a
non-empty existing response body that differs from its serialization. -/
def cmdOverwrite : Command :=
  { request := { methodLine := "Fetch", content := "" }
    response := { methodLine := "", content := "old" }
    jsonContent := [("a", "b")], httpsRequest := none }

/-- Concrete plugin used as a test input: enabled, claims both phases,
accumulates one SQL statement. -/
def plugClaim : BedrockPlugin :=
  { name := "c", enabled := true, peekResult := Except.ok true
    processResult := Except.ok true, processQuery := "INSERT INTO t VALUES (1);" }

/-- Concrete plugin used as a test input: enabled, declines both phases. -/
def plugDecline : BedrockPlugin :=
  { name := "d", enabled := true, peekResult := Except.ok false
    processResult := Except.ok false, processQuery := "" }

/-- Concrete plugin used as a test input: disabled. -/
def plugDisabled : BedrockPlugin :=
  { name := "x", enabled := false, peekResult := Except.ok true
    processResult := Except.ok true, processQuery := "Q" }

/-- Concrete plugin used as a test input: enabled, throws in both
phases. -/
def plugThrow : BedrockPlugin :=
  { name := "t", enabled := true, peekResult := Except.error "404_WARN_ Not Found"
    processResult := Except.error "404_WARN_ Not Found", processQuery := "" }

/-- Concrete SQL handle state after `dbW.beginTransaction` and the
dispatch of `plugClaim`. -/
def db2W : SQLite :=
  { transactionOpen := true, uncommittedQuery := "INSERT INTO t VALUES (1);"
    beginWillSucceed := true, prepareWillSucceed := true
    beginCount := 1, rollbackCount := 0, prepareCount := 0 }

/-- Concrete sub-request used as a test input: owner reference present. -/
def reqOwned : HttpsRequest :=
  { hasOwner := true, fullResponse := { methodLine := "200 OK", content := "" } }

/-- Concrete command used as a test input: holds an owned sub-request. -/
def cmdWithReq : Command :=
  { request := { methodLine := "Pay", content := "" }
    response := { methodLine := "", content := "" }
    jsonContent := [], httpsRequest := some reqOwned }


/-- Field bookkeeping of `beginTransaction`: the counters and oracle flags
other than `beginCount` are untouched. -/
theorem beginTransaction_snd (db : SQLite) :
    (db.beginTransaction).2.rollbackCount = db.rollbackCount ∧
    (db.beginTransaction).2.prepareCount = db.prepareCount ∧
    (db.beginTransaction).2.prepareWillSucceed = db.prepareWillSucceed ∧
    (db.beginTransaction).2.uncommittedQuery = db.uncommittedQuery := by
  unfold SQLite.beginTransaction
  split <;> exact ⟨rfl, rfl, rfl, rfl⟩

/-- Field bookkeeping of `prepare`: rollback counter untouched, prepare
counter incremented. -/
theorem prepare_snd (db : SQLite) :
    (db.prepare).2.rollbackCount = db.rollbackCount ∧
    (db.prepare).2.prepareCount = db.prepareCount + 1 := by
  unfold SQLite.prepare
  split <;> exact ⟨rfl, rfl⟩

/-- The process-phase plugin loop only appends to the uncommitted query of
the handle. -/
theorem findClaimerProcess_shape (ps : List BedrockPlugin) : ∀ (db : SQLite),
    ∃ q, (findClaimerProcess ps db).1 = { db with uncommittedQuery := q } := by
  induction ps with
  | nil =>
      intro db
      exact ⟨db.uncommittedQuery, rfl⟩
  | cons p rest ih =>
      intro db
      unfold findClaimerProcess
      by_cases hp : p.enabled = true
      · simp only [hp, if_true]
        rcases hres : p.processResult with e | b
        · exact ⟨db.uncommittedQuery ++ p.processQuery, rfl⟩
        · cases b
          · obtain ⟨q, hq⟩ := ih { db with uncommittedQuery := db.uncommittedQuery ++ p.processQuery }
            exact ⟨q, hq⟩
          · exact ⟨db.uncommittedQuery ++ p.processQuery, rfl⟩
      · simp only [hp, if_false]
        exact ih db

/-- If every enabled plugin's process hook declines (returns false), the
process-phase plugin loop finds no claimer. -/
theorem findClaimerProcess_none (ps : List BedrockPlugin)
    (h : ∀ p ∈ ps, p.enabled = true → p.processResult = Except.ok false) :
    ∀ db, (findClaimerProcess ps db).2 = Except.ok none := by
  induction ps with
  | nil => intro db; rfl
  | cons p rest ih =>
      intro db
      unfold findClaimerProcess
      by_cases hp : p.enabled = true
      · have hres := h p (List.mem_cons_self p rest) hp
        simp only [hp, if_true, hres]
        exact ih (fun q hq hqe => h q (List.mem_cons_of_mem p hq) hqe) _
      · simp only [hp, if_false]
        exact ih (fun q hq hqe => h q (List.mem_cons_of_mem p hq) hqe) db

/-- If every enabled plugin's peek hook declines (returns false), the
peek-phase plugin loop finds no claimer. -/
theorem findClaimerPeek_none (ps : List BedrockPlugin)
    (h : ∀ p ∈ ps, p.enabled = true → p.peekResult = Except.ok false) :
    findClaimerPeek ps = Except.ok none := by
  induction ps with
  | nil => rfl
  | cons p rest ih =>
      unfold findClaimerPeek
      by_cases hp : p.enabled = true
      · have hres := h p (List.mem_cons_self p rest) hp
        simp only [hp, if_true, hres]
        exact ih (fun q hq hqe => h q (List.mem_cons_of_mem p hq) hqe)
      · simp only [hp, if_false]
        exact ih (fun q hq hqe => h q (List.mem_cons_of_mem p hq) hqe)

/-- The content-encoding block never changes the response status line. -/
theorem applyContent_fst_methodLine (request response : SData) (content : STable) :
    (applyContent request response content).1.methodLine = response.methodLine := by
  simp only [applyContent]
  repeat' split
  all_goals rfl

/-- The content-encoding block, when `content` is non-empty and its JSON
form differs from the existing body: the body is replaced, and a warning
event is emitted when the existing body was non-empty. -/
theorem applyContent_replace (request response : SData) (content : STable)
    (hc : content.isEmpty = false) (hd : response.content ≠ SComposeJSONObject content) :
    (applyContent request response content).1.content = SComposeJSONObject content ∧
    ((response.content ≠ "") →
      (Severity.warn, "Replacing existing response content in " ++ request.methodLine)
        ∈ (applyContent request response content).2) := by
  simp only [applyContent, hc, Bool.false_eq_true, if_false]
  rw [if_neg hd]
  by_cases he : response.content = ""
  · rw [if_pos he]
    exact ⟨rfl, fun hne => absurd he hne⟩
  · rw [if_neg he]
    exact ⟨rfl, fun _ => List.mem_singleton.mpr rfl⟩

/-- Branch equation of the try-block tail: empty uncommitted query. -/
theorem finishProcess_eq_empty (db : SQLite) (request response : SData) (content : STable)
    (u : List String) (logs : List (Severity × String)) (hq : db.uncommittedQuery = "") :
    finishProcess db request response content u logs =
      { db := db.rollback
        response := (applyContent request response content).1
        logs := (logs ++ [(Severity.info,
          "Responding \x27" ++ response.methodLine ++ "\x27 to \x27" ++ request.methodLine ++ "\x27.")])
          ++ (applyContent request response content).2
        upgraded := u
        caught := none } := by
  unfold finishProcess
  rw [if_pos hq]

/-- Branch equation of the try-block tail: non-empty query, prepare fails. -/
theorem finishProcess_eq_prepareFail (db dbp : SQLite) (request response : SData) (content : STable)
    (u : List String) (logs : List (Severity × String))
    (hq : db.uncommittedQuery ≠ "") (hp : db.prepare = (false, dbp)) :
    finishProcess db request response content u logs =
      processCatch dbp request response u logs "501 Failed to prepare transaction" := by
  unfold finishProcess
  rw [if_neg hq]
  simp only [hp]

/-- Branch equation of the try-block tail: non-empty query, prepare
succeeds. -/
theorem finishProcess_eq_prepareOk (db dbp : SQLite) (request response : SData) (content : STable)
    (u : List String) (logs : List (Severity × String))
    (hq : db.uncommittedQuery ≠ "") (hp : db.prepare = (true, dbp)) :
    finishProcess db request response content u logs =
      { db := dbp
        response := (applyContent request response content).1
        logs := (logs ++ [(Severity.info,
          "Responding \x27" ++ response.methodLine ++ "\x27 to \x27" ++ request.methodLine ++ "\x27.")])
          ++ (applyContent request response content).2
        upgraded := u
        caught := none } := by
  unfold finishProcess
  rw [if_neg hq]
  simp only [hp]

/-- Branch equation of `_processCommand`: beginTransaction fails. -/
theorem processCommand_eq_beginFail (db db1 : SQLite) (command : Command)
    (plugins : List BedrockPlugin) (hbt : db.beginTransaction = (false, db1)) :
    _processCommand db command plugins =
      processCatch db1 command.request command.response [] [] "501 Failed to begin transaction" := by
  unfold _processCommand
  simp only [hbt]

/-- Branch equation of `_processCommand`: the `UpgradeDatabase` special
case. -/
theorem processCommand_eq_upgrade (db db1 : SQLite) (command : Command)
    (plugins : List BedrockPlugin) (hbt : db.beginTransaction = (true, db1))
    (hu : SIEquals command.request.methodLine "UpgradeDatabase" = true) :
    _processCommand db command plugins =
      finishProcess db1 command.request command.response command.jsonContent
        ((plugins.filter (fun p => p.enabled)).map (fun p => p.name))
        [(Severity.info, "Upgrading database"), (Severity.info, "Finished upgrading database")] := by
  unfold _processCommand
  simp only [hbt, hu, if_true]

/-- Branch equation of `_processCommand`: ordinary dispatch, a plugin's
process hook throws. -/
theorem processCommand_eq_throw (db db1 db2 : SQLite) (command : Command)
    (plugins : List BedrockPlugin) (e : String)
    (hbt : db.beginTransaction = (true, db1))
    (hu : SIEquals command.request.methodLine "UpgradeDatabase" = false)
    (hfc : findClaimerProcess plugins db1 = (db2, Except.error e)) :
    _processCommand db command plugins =
      processCatch db2 command.request command.response [] [] e := by
  unfold _processCommand
  simp only [hbt, hu, Bool.false_eq_true, if_false, hfc]

/-- Branch equation of `_processCommand`: ordinary dispatch, no plugin
claims the command. -/
theorem processCommand_eq_noClaimer (db db1 db2 : SQLite) (command : Command)
    (plugins : List BedrockPlugin)
    (hbt : db.beginTransaction = (true, db1))
    (hu : SIEquals command.request.methodLine "UpgradeDatabase" = false)
    (hfc : findClaimerProcess plugins db1 = (db2, Except.ok none)) :
    _processCommand db command plugins =
      processCatch db2 command.request command.response []
        [(Severity.warn, "Command \x27" ++ command.request.methodLine ++ "\x27 does not exist.")]
        "430 Unrecognized command" := by
  unfold _processCommand
  simp only [hbt, hu, Bool.false_eq_true, if_false, hfc]

/-- Branch equation of `_processCommand`: ordinary dispatch, a plugin
claims the command. -/
theorem processCommand_eq_claimed (db db1 db2 : SQLite) (command : Command)
    (plugins : List BedrockPlugin) (p : BedrockPlugin)
    (hbt : db.beginTransaction = (true, db1))
    (hu : SIEquals command.request.methodLine "UpgradeDatabase" = false)
    (hfc : findClaimerProcess plugins db1 = (db2, Except.ok (some p))) :
    _processCommand db command plugins =
      finishProcess db2 command.request command.response command.jsonContent []
        [(Severity.info,
          "Plugin \x27" ++ p.name ++ "\x27 processed command \x27" ++
            command.request.methodLine ++ "\x27")] := by
  unfold _processCommand
  simp only [hbt, hu, Bool.false_eq_true, if_false, hfc]

/-- State bookkeeping across `beginTransaction`: only `transactionOpen`
and `beginCount` can change. -/
theorem beginTransaction_state (db db1 : SQLite) (b : Bool) (h : db.beginTransaction = (b, db1)) :
    db1.rollbackCount = db.rollbackCount ∧ db1.prepareCount = db.prepareCount ∧
    db1.prepareWillSucceed = db.prepareWillSucceed ∧ db1.uncommittedQuery = db.uncommittedQuery := by
  unfold SQLite.beginTransaction at h
  by_cases hb : db.beginWillSucceed = true
  · rw [if_pos hb] at h
    injection h with h1 h2
    subst h2
    exact ⟨rfl, rfl, rfl, rfl⟩
  · rw [if_neg hb] at h
    injection h with h1 h2
    subst h2
    exact ⟨rfl, rfl, rfl, rfl⟩

/-- State bookkeeping across `prepare`: the prepare counter is incremented
and the rest is untouched. -/
theorem prepare_state (db dbp : SQLite) (b : Bool) (h : db.prepare = (b, dbp)) :
    dbp.rollbackCount = db.rollbackCount ∧ dbp.prepareCount = db.prepareCount + 1 ∧
    dbp.uncommittedQuery = db.uncommittedQuery := by
  unfold SQLite.prepare at h
  by_cases hp : db.prepareWillSucceed = true
  · rw [if_pos hp] at h
    injection h with h1 h2
    subst h2
    exact ⟨rfl, rfl, rfl⟩
  · rw [if_neg hp] at h
    injection h with h1 h2
    subst h2
    exact ⟨rfl, rfl, rfl⟩

/-- State bookkeeping across the process-phase plugin loop: everything but
the uncommitted query is untouched. -/
theorem findClaimerProcess_state (ps : List BedrockPlugin) (db db2 : SQLite)
    (res : Except String (Option BedrockPlugin)) (h : findClaimerProcess ps db = (db2, res)) :
    db2.rollbackCount = db.rollbackCount ∧ db2.transactionOpen = db.transactionOpen ∧
    db2.prepareWillSucceed = db.prepareWillSucceed ∧ db2.beginWillSucceed = db.beginWillSucceed ∧
    db2.prepareCount = db.prepareCount := by
  obtain ⟨q, hq⟩ := findClaimerProcess_shape ps db
  have h1 : (findClaimerProcess ps db).1 = db2 := by rw [h]
  rw [hq] at h1
  subst h1
  exact ⟨rfl, rfl, rfl, rfl, rfl⟩

/-- The try-block tail either succeeds (no error caught, status line and
upgrade record untouched) or is exactly the catch block applied to the
prepare failure. -/
theorem finishProcess_cases (db : SQLite) (request response : SData) (content : STable)
    (u : List String) (logs : List (Severity × String)) :
    ((finishProcess db request response content u logs).caught = none ∧
     (finishProcess db request response content u logs).response.methodLine = response.methodLine ∧
     (finishProcess db request response content u logs).upgraded = u) ∨
    (∃ dbp, db.prepare = (false, dbp) ∧
      finishProcess db request response content u logs =
        processCatch dbp request response u logs "501 Failed to prepare transaction") := by
  by_cases hq : db.uncommittedQuery = ""
  · rw [finishProcess_eq_empty db request response content u logs hq]
    exact Or.inl ⟨rfl, applyContent_fst_methodLine request response content, rfl⟩
  · rcases hp : db.prepare with ⟨bp, dbp⟩
    cases bp
    · exact Or.inr ⟨dbp, rfl, finishProcess_eq_prepareFail db dbp request response content u logs hq hp⟩
    · rw [finishProcess_eq_prepareOk db dbp request response content u logs hq hp]
      exact Or.inl ⟨rfl, applyContent_fst_methodLine request response content, rfl⟩

/-- Exhaustive characterization of `_processCommand`: either no error is
caught and the status line is untouched, or some error was caught, the
status line is that error's text, the transaction was rolled back exactly
once and is closed, and the classified error message was logged. -/
theorem processCommand_cases (db : SQLite) (command : Command) (plugins : List BedrockPlugin) :
    ((_processCommand db command plugins).caught = none ∧
     (_processCommand db command plugins).response.methodLine = command.response.methodLine) ∨
    (∃ e, (_processCommand db command plugins).caught = some e ∧
      (_processCommand db command plugins).response.methodLine = e ∧
      (_processCommand db command plugins).db.rollbackCount = db.rollbackCount + 1 ∧
      (_processCommand db command plugins).db.transactionOpen = false ∧
      (classifySeverity e, processErrMsg command.request e) ∈ (_processCommand db command plugins).logs) := by
  rcases hbt : db.beginTransaction with ⟨b, db1⟩
  obtain ⟨h1r, h1p, h1w, h1q⟩ := beginTransaction_state db db1 b hbt
  cases b
  · rw [processCommand_eq_beginFail db db1 command plugins hbt]
    refine Or.inr ⟨"501 Failed to begin transaction", rfl, rfl, ?_, rfl, ?_⟩
    · show db1.rollback.rollbackCount = db.rollbackCount + 1
      unfold SQLite.rollback
      simp [h1r]
    · exact List.mem_append_right _ (List.mem_singleton.mpr rfl)
  · by_cases hu : SIEquals command.request.methodLine "UpgradeDatabase" = true
    · rw [processCommand_eq_upgrade db db1 command plugins hbt hu]
      rcases finishProcess_cases db1 command.request command.response command.jsonContent
          ((plugins.filter (fun p => p.enabled)).map (fun p => p.name))
          [(Severity.info, "Upgrading database"), (Severity.info, "Finished upgrading database")] with
        ⟨hc, hm, _⟩ | ⟨dbp, hp, heq⟩
      · exact Or.inl ⟨hc, hm⟩
      · rw [heq]
        obtain ⟨hpr, _, _⟩ := prepare_state db1 dbp false hp
        refine Or.inr ⟨"501 Failed to prepare transaction", rfl, rfl, ?_, rfl, ?_⟩
        · show dbp.rollback.rollbackCount = db.rollbackCount + 1
          unfold SQLite.rollback
          simp [hpr, h1r]
        · exact List.mem_append_right _ (List.mem_singleton.mpr rfl)
    · have hu' : SIEquals command.request.methodLine "UpgradeDatabase" = false := by
        cases hx : SIEquals command.request.methodLine "UpgradeDatabase"
        · rfl
        · exact absurd hx hu
      rcases hfc : findClaimerProcess plugins db1 with ⟨db2, res⟩
      obtain ⟨h2r, h2t, h2w, h2b, h2p⟩ := findClaimerProcess_state plugins db1 db2 res hfc
      cases res with
      | error e =>
          rw [processCommand_eq_throw db db1 db2 command plugins e hbt hu' hfc]
          refine Or.inr ⟨e, rfl, rfl, ?_, rfl, ?_⟩
          · show db2.rollback.rollbackCount = db.rollbackCount + 1
            unfold SQLite.rollback
            simp [h2r, h1r]
          · exact List.mem_append_right _ (List.mem_singleton.mpr rfl)
      | ok o =>
          cases o with
          | none =>
              rw [processCommand_eq_noClaimer db db1 db2 command plugins hbt hu' hfc]
              refine Or.inr ⟨"430 Unrecognized command", rfl, rfl, ?_, rfl, ?_⟩
              · show db2.rollback.rollbackCount = db.rollbackCount + 1
                unfold SQLite.rollback
                simp [h2r, h1r]
              · exact List.mem_append_right _ (List.mem_singleton.mpr rfl)
          | some p =>
              rw [processCommand_eq_claimed db db1 db2 command plugins p hbt hu' hfc]
              rcases finishProcess_cases db2 command.request command.response command.jsonContent []
                  [(Severity.info,
                    "Plugin \x27" ++ p.name ++ "\x27 processed command \x27" ++
                      command.request.methodLine ++ "\x27")] with
                ⟨hc, hm, _⟩ | ⟨dbp, hp, heq⟩
              · exact Or.inl ⟨hc, hm⟩
              · rw [heq]
                obtain ⟨hpr, _, _⟩ := prepare_state db2 dbp false hp
                refine Or.inr ⟨"501 Failed to prepare transaction", rfl, rfl, ?_, rfl, ?_⟩
                · show dbp.rollback.rollbackCount = db.rollbackCount + 1
                  unfold SQLite.rollback
                  simp [hpr, h2r, h1r]
                · exact List.mem_append_right _ (List.mem_singleton.mpr rfl)

/-- Branch equation of `_peekCommand`: a plugin's peek hook throws. -/
theorem peekCommand_eq_error (command : Command) (plugins : List BedrockPlugin) (e : String)
    (hfc : findClaimerPeek plugins = Except.error e) :
    _peekCommand command plugins =
      { ret := true
        response := { command.response with methodLine := e }
        logs := [(classifySeverity e, peekErrMsg command.request e)]
        caught := some e } := by
  unfold _peekCommand
  rw [hfc]

/-- Branch equation of `_peekCommand`: no plugin claims the command. -/
theorem peekCommand_eq_none (command : Command) (plugins : List BedrockPlugin)
    (hfc : findClaimerPeek plugins = Except.ok none) :
    _peekCommand command plugins =
      { ret := false
        response := { command.response with methodLine := "200 OK" }
        logs := [(Severity.info,
          "Command \x27" ++ command.request.methodLine ++ "\x27 is not peekable, queuing for processing.")]
        caught := none } := by
  unfold _peekCommand
  rw [hfc]

/-- Branch equation of `_peekCommand`: a plugin claims the command. -/
theorem peekCommand_eq_some (command : Command) (plugins : List BedrockPlugin) (p : BedrockPlugin)
    (hfc : findClaimerPeek plugins = Except.ok (some p)) :
    _peekCommand command plugins =
      { ret := true
        response := (applyContent command.request { command.response with methodLine := "200 OK" }
          command.jsonContent).1
        logs := [(Severity.info,
            "Plugin \x27" ++ p.name ++ "\x27 peeked command \x27" ++ command.request.methodLine ++ "\x27"),
          (Severity.info,
            "Responding \x27" ++ "200 OK" ++ "\x27 to read-only \x27" ++
              command.request.methodLine ++ "\x27.")]
          ++ (applyContent command.request { command.response with methodLine := "200 OK" }
            command.jsonContent).2
        caught := none } := by
  unfold _peekCommand
  rw [hfc]

/-- C1: the numeric-prefix rule of the severity classifier fires only on
error strings starting with the two characters "50" (codes 500-509), not
on the whole 500-599 range: the marker-free 5xx code
"530 Unexpected response" (listed in the unit's own response-code
taxonomy) is classified informational, not alert, while "509 ..." still
alerts. -/
theorem severity_530_not_alert :
    classifySeverity "530 Unexpected response" = Severity.info ∧
    classifySeverity "509 Operation timed out." = Severity.alert := by
  decide

/-- C2: whenever the process phase catches an error (from begin, dispatch
or prepare), it returns normally instead of re-throwing, rolls the
transaction back exactly once leaving it closed, sets the response status
line to the error's text, and logs the classified error message. -/
theorem process_error_path (db : SQLite) (command : Command) (plugins : List BedrockPlugin)
    (e : String) (h : (_processCommand db command plugins).caught = some e) :
    (_processCommand db command plugins).response.methodLine = e ∧
    (_processCommand db command plugins).db.rollbackCount = db.rollbackCount + 1 ∧
    (_processCommand db command plugins).db.transactionOpen = false ∧
    (classifySeverity e, processErrMsg command.request e) ∈ (_processCommand db command plugins).logs := by
  rcases processCommand_cases db command plugins with ⟨hc, _⟩ | ⟨e1, hc, hm, hr, ht, hl⟩
  · rw [h] at hc
    exact absurd hc (by simp)
  · rw [h] at hc
    injection hc with he
    subst he
    exact ⟨hm, hr, ht, hl⟩

/-- C2 witness: a plugin throwing "404_WARN_ Not Found" during process
dispatch. -/
theorem process_error_path_witness :
    (_processCommand dbW cmdW [plugThrow]).response.methodLine = "404_WARN_ Not Found" ∧
    (_processCommand dbW cmdW [plugThrow]).db.rollbackCount = dbW.rollbackCount + 1 ∧
    (_processCommand dbW cmdW [plugThrow]).db.transactionOpen = false ∧
    (classifySeverity "404_WARN_ Not Found", processErrMsg cmdW.request "404_WARN_ Not Found")
      ∈ (_processCommand dbW cmdW [plugThrow]).logs :=
  process_error_path dbW cmdW [plugThrow] "404_WARN_ Not Found" (by decide)

/-- C3: after a successful plugin dispatch in the process phase, an empty
uncommitted query leads to a rollback with prepare never called, while a
non-empty query leads to exactly one prepare attempt; a failing prepare
takes the error path with status "501 Failed to prepare transaction" and
an explicit rollback. -/
theorem process_prepare_policy (db db2 : SQLite) (command : Command)
    (plugins : List BedrockPlugin) (p : BedrockPlugin)
    (hb : db.beginWillSucceed = true)
    (hu : SIEquals command.request.methodLine "UpgradeDatabase" = false)
    (hfc : findClaimerProcess plugins
      { db with transactionOpen := true, beginCount := db.beginCount + 1 } =
      (db2, Except.ok (some p))) :
    (db2.uncommittedQuery = "" →
      (_processCommand db command plugins).db.prepareCount = db.prepareCount ∧
      (_processCommand db command plugins).db.rollbackCount = db.rollbackCount + 1 ∧
      (_processCommand db command plugins).caught = none) ∧
    (db2.uncommittedQuery ≠ "" →
      (_processCommand db command plugins).db.prepareCount = db.prepareCount + 1 ∧
      (db.prepareWillSucceed = false →
        (_processCommand db command plugins).caught = some "501 Failed to prepare transaction" ∧
        (_processCommand db command plugins).response.methodLine = "501 Failed to prepare transaction" ∧
        (_processCommand db command plugins).db.rollbackCount = db.rollbackCount + 1)) := by
  have hbt : db.beginTransaction =
      (true, { db with transactionOpen := true, beginCount := db.beginCount + 1 }) := by
    unfold SQLite.beginTransaction
    rw [if_pos hb]
  obtain ⟨h2r, h2t, h2w, h2b, h2p⟩ := findClaimerProcess_state plugins _ db2 _ hfc
  rw [processCommand_eq_claimed db _ db2 command plugins p hbt hu hfc]
  constructor
  · intro hq
    rw [finishProcess_eq_empty db2 command.request command.response command.jsonContent _ _ hq]
    refine ⟨?_, ?_, rfl⟩
    · show db2.rollback.prepareCount = db.prepareCount
      unfold SQLite.rollback
      simp only
      rw [h2p]
    · show db2.rollback.rollbackCount = db.rollbackCount + 1
      unfold SQLite.rollback
      simp only
      rw [h2r]
  · intro hq
    rcases hp : db2.prepare with ⟨bp, dbp⟩
    obtain ⟨hpr, hpp, hpq⟩ := prepare_state db2 dbp bp hp
    cases bp
    · rw [finishProcess_eq_prepareFail db2 dbp command.request command.response
        command.jsonContent _ _ hq hp]
      refine ⟨?_, fun _ => ⟨rfl, rfl, ?_⟩⟩
      · show dbp.rollback.prepareCount = db.prepareCount + 1
        unfold SQLite.rollback
        simp only
        rw [hpp, h2p]
      · show dbp.rollback.rollbackCount = db.rollbackCount + 1
        unfold SQLite.rollback
        simp only
        rw [hpr, h2r]
    · rw [finishProcess_eq_prepareOk db2 dbp command.request command.response
        command.jsonContent _ _ hq hp]
      refine ⟨?_, fun hpw => ?_⟩
      · show dbp.prepareCount = db.prepareCount + 1
        rw [hpp, h2p]
      · have hw2 : db2.prepareWillSucceed = false := by
          rw [h2w]
          exact hpw
        unfold SQLite.prepare at hp
        rw [hw2] at hp
        simp at hp

/-- C3 witness: a claiming plugin that accumulates one SQL statement,
leading to exactly one (successful) prepare attempt. -/
theorem process_prepare_policy_witness :
    (_processCommand dbW cmdW [plugClaim]).db.prepareCount = dbW.prepareCount + 1 := by
  have h := process_prepare_policy dbW db2W cmdW [plugClaim] plugClaim (by decide) (by decide)
    (by decide)
  exact (h.2 (by decide)).1

/-- C4: when no enabled plugin claims a command during peek, the call
returns false (the command stays eligible for processing) and the only
response mutation kept is the optimistic "200 OK" status line. -/
theorem peek_unclaimed (command : Command) (plugins : List BedrockPlugin)
    (h : ∀ p ∈ plugins, p.enabled = true → p.peekResult = Except.ok false) :
    (_peekCommand command plugins).ret = false ∧
    (_peekCommand command plugins).response = { command.response with methodLine := "200 OK" } := by
  rw [peekCommand_eq_none command plugins (findClaimerPeek_none plugins h)]
  exact ⟨rfl, rfl⟩

/-- C4 witness: an "Echo" command offered to one declining and one
disabled plugin. -/
theorem peek_unclaimed_witness :
    (_peekCommand cmdEcho [plugDecline, plugDisabled]).ret = false ∧
    (_peekCommand cmdEcho [plugDecline, plugDisabled]).response =
      { cmdEcho.response with methodLine := "200 OK" } :=
  peek_unclaimed cmdEcho [plugDecline, plugDisabled] (by decide)

/-- C5: when a plugin's peek hook throws, the error is caught at the peek
boundary (the call returns normally), the response status line becomes the
error's text, the classified error message is logged, and peek returns
true (the command is finished, not re-queued). -/
theorem peek_error_path (command : Command) (plugins : List BedrockPlugin) (e : String)
    (h : findClaimerPeek plugins = Except.error e) :
    (_peekCommand command plugins).ret = true ∧
    (_peekCommand command plugins).caught = some e ∧
    (_peekCommand command plugins).response.methodLine = e ∧
    (classifySeverity e, peekErrMsg command.request e) ∈ (_peekCommand command plugins).logs := by
  rw [peekCommand_eq_error command plugins e h]
  exact ⟨rfl, rfl, rfl, List.mem_singleton.mpr rfl⟩

/-- C5 witness: a plugin throwing "404_WARN_ Not Found" during peek. -/
theorem peek_error_path_witness :
    (_peekCommand cmdEcho [plugThrow]).ret = true ∧
    (_peekCommand cmdEcho [plugThrow]).caught = some "404_WARN_ Not Found" ∧
    (_peekCommand cmdEcho [plugThrow]).response.methodLine = "404_WARN_ Not Found" ∧
    (classifySeverity "404_WARN_ Not Found", peekErrMsg cmdEcho.request "404_WARN_ Not Found")
      ∈ (_peekCommand cmdEcho [plugThrow]).logs :=
  peek_error_path cmdEcho [plugThrow] "404_WARN_ Not Found" (by decide)

/-- In the `UpgradeDatabase` branch of the process phase, the upgrade
hooks of exactly the enabled plugins are invoked, in registration order,
and the only errors the phase can produce are the begin and prepare
failures (never "430 Unrecognized command"). -/
theorem upgrade_branch (db : SQLite) (command : Command) (plugins : List BedrockPlugin)
    (hu : SIEquals command.request.methodLine "UpgradeDatabase" = true) :
    (db.beginWillSucceed = true →
      (_processCommand db command plugins).upgraded =
        (plugins.filter (fun p => p.enabled)).map (fun p => p.name)) ∧
    ((_processCommand db command plugins).response.methodLine = command.response.methodLine ∨
     (_processCommand db command plugins).response.methodLine = "501 Failed to begin transaction" ∨
     (_processCommand db command plugins).response.methodLine = "501 Failed to prepare transaction") := by
  rcases hbt : db.beginTransaction with ⟨b, db1⟩
  cases b
  · rw [processCommand_eq_beginFail db db1 command plugins hbt]
    constructor
    · intro hb
      unfold SQLite.beginTransaction at hbt
      rw [if_pos hb] at hbt
      exact absurd (congrArg Prod.fst hbt) (by simp)
    · exact Or.inr (Or.inl rfl)
  · rw [processCommand_eq_upgrade db db1 command plugins hbt hu]
    rcases finishProcess_cases db1 command.request command.response command.jsonContent
        ((plugins.filter (fun p => p.enabled)).map (fun p => p.name))
        [(Severity.info, "Upgrading database"), (Severity.info, "Finished upgrading database")] with
      ⟨_, hm, hup⟩ | ⟨dbp, hp, heq⟩
    · exact ⟨fun _ => hup, Or.inl hm⟩
    · rw [heq]
      exact ⟨fun _ => rfl, Or.inr (Or.inr rfl)⟩

/-- C6: a process-phase "UpgradeDatabase" command invokes the upgrade
hook of every enabled plugin exactly once, in registration order, with no
short-circuit, skipping disabled plugins, instead of normal process
dispatch. -/
theorem process_upgrade_dispatch (db : SQLite) (command : Command) (plugins : List BedrockPlugin)
    (hb : db.beginWillSucceed = true)
    (hm : SIEquals command.request.methodLine "UpgradeDatabase" = true) :
    (_processCommand db command plugins).upgraded =
      (plugins.filter (fun p => p.enabled)).map (fun p => p.name) :=
  (upgrade_branch db command plugins hm).1 hb

/-- C6 witness: two enabled plugins and one disabled plugin; the upgrade
hooks of the enabled ones run in registration order. -/
theorem process_upgrade_dispatch_witness :
    (_processCommand dbW cmdUpgrade [plugClaim, plugDisabled, plugDecline]).upgraded =
      ([plugClaim, plugDisabled, plugDecline].filter (fun p => p.enabled)).map (fun p => p.name) :=
  process_upgrade_dispatch dbW cmdUpgrade [plugClaim, plugDisabled, plugDecline]
    (by decide) (by decide)

/-- C7: a non-upgrade process-phase command that no enabled plugin claims
gets response status exactly "430 Unrecognized command" and the
transaction is rolled back. -/
theorem process_unrecognized (db : SQLite) (command : Command) (plugins : List BedrockPlugin)
    (hb : db.beginWillSucceed = true)
    (hu : SIEquals command.request.methodLine "UpgradeDatabase" = false)
    (h : ∀ p ∈ plugins, p.enabled = true → p.processResult = Except.ok false) :
    (_processCommand db command plugins).response.methodLine = "430 Unrecognized command" ∧
    (_processCommand db command plugins).db.rollbackCount = db.rollbackCount + 1 ∧
    (_processCommand db command plugins).db.transactionOpen = false := by
  have hbt : db.beginTransaction =
      (true, { db with transactionOpen := true, beginCount := db.beginCount + 1 }) := by
    unfold SQLite.beginTransaction
    rw [if_pos hb]
  rcases hfc : findClaimerProcess plugins
      { db with transactionOpen := true, beginCount := db.beginCount + 1 } with ⟨db2, res⟩
  have hres : res = Except.ok none := by
    have hn := findClaimerProcess_none plugins h
      { db with transactionOpen := true, beginCount := db.beginCount + 1 }
    rw [hfc] at hn
    exact hn
  subst hres
  obtain ⟨h2r, _, _, _, _⟩ := findClaimerProcess_state plugins _ db2 _ hfc
  rw [processCommand_eq_noClaimer db _ db2 command plugins hbt hu hfc]
  refine ⟨rfl, ?_, rfl⟩
  show db2.rollback.rollbackCount = db.rollbackCount + 1
  unfold SQLite.rollback
  simp only
  rw [h2r]

/-- C7 witness: a "Bogus" command offered to one declining plugin. -/
theorem process_unrecognized_witness :
    (_processCommand dbW cmdW [plugDecline]).response.methodLine = "430 Unrecognized command" ∧
    (_processCommand dbW cmdW [plugDecline]).db.rollbackCount = dbW.rollbackCount + 1 ∧
    (_processCommand dbW cmdW [plugDecline]).db.transactionOpen = false :=
  process_unrecognized dbW cmdW [plugDecline] (by decide) (by decide) (by decide)

/-- On the success path, the try-block tail leaves the response at the
outcome of the content-encoding block and keeps all of that block's warn
events in the emitted logs. -/
theorem finishProcess_content (db : SQLite) (request response : SData) (content : STable)
    (u : List String) (logs : List (Severity × String))
    (h : (finishProcess db request response content u logs).caught = none) :
    (finishProcess db request response content u logs).response =
      (applyContent request response content).1 ∧
    ∀ x ∈ (applyContent request response content).2,
      x ∈ (finishProcess db request response content u logs).logs := by
  by_cases hq : db.uncommittedQuery = ""
  · rw [finishProcess_eq_empty db request response content u logs hq]
    exact ⟨rfl, fun x hx => List.mem_append_right _ hx⟩
  · rcases hp : db.prepare with ⟨bp, dbp⟩
    cases bp
    · rw [finishProcess_eq_prepareFail db dbp request response content u logs hq hp] at h
      exact absurd h (by simp [processCatch])
    · rw [finishProcess_eq_prepareOk db dbp request response content u logs hq hp]
      exact ⟨rfl, fun x hx => List.mem_append_right _ hx⟩

/-- On the success path, the process phase leaves the response at the
outcome of the content-encoding block applied to the command's original
response and content, and keeps that block's warn events in the logs. -/
theorem processCommand_success_content (db : SQLite) (command : Command)
    (plugins : List BedrockPlugin)
    (h : (_processCommand db command plugins).caught = none) :
    (_processCommand db command plugins).response =
      (applyContent command.request command.response command.jsonContent).1 ∧
    ∀ x ∈ (applyContent command.request command.response command.jsonContent).2,
      x ∈ (_processCommand db command plugins).logs := by
  rcases hbt : db.beginTransaction with ⟨b, db1⟩
  cases b
  · rw [processCommand_eq_beginFail db db1 command plugins hbt] at h
    exact absurd h (by simp [processCatch])
  · by_cases hu : SIEquals command.request.methodLine "UpgradeDatabase" = true
    · rw [processCommand_eq_upgrade db db1 command plugins hbt hu] at h ⊢
      exact finishProcess_content db1 command.request command.response command.jsonContent _ _ h
    · have hu' : SIEquals command.request.methodLine "UpgradeDatabase" = false := by
        cases hx : SIEquals command.request.methodLine "UpgradeDatabase"
        · rfl
        · exact absurd hx hu
      rcases hfc : findClaimerProcess plugins db1 with ⟨db2, res⟩
      cases res with
      | error e =>
          rw [processCommand_eq_throw db db1 db2 command plugins e hbt hu' hfc] at h
          exact absurd h (by simp [processCatch])
      | ok o =>
          cases o with
          | none =>
              rw [processCommand_eq_noClaimer db db1 db2 command plugins hbt hu' hfc] at h
              exact absurd h (by simp [processCatch])
          | some p =>
              rw [processCommand_eq_claimed db db1 db2 command plugins p hbt hu' hfc] at h ⊢
              exact finishProcess_content db2 command.request command.response
                command.jsonContent _ _ h

/-- C8 counterexample: in peek, with a non-empty content table whose JSON
serialization differs from the (empty) existing response body, the body is
replaced but no warning is emitted — the claim's "a warning is emitted
whenever the serialization differs" fails when the existing body is
empty. -/
theorem content_warn_counterexample :
    cmdContent.jsonContent.isEmpty = false ∧
    SComposeJSONObject cmdContent.jsonContent ≠ cmdContent.response.content ∧
    (_peekCommand cmdContent [plugClaim]).response.content =
      SComposeJSONObject cmdContent.jsonContent ∧
    ((_peekCommand cmdContent [plugClaim]).logs.all
      (fun l => decide (l.fst ≠ Severity.warn))) = true := by
  decide

/-- C8 amended: in both peek and process, when the content table is
non-empty and its JSON serialization differs from the existing response
body, the body is replaced with the new serialization; a warning is
emitted when the existing body was additionally non-empty (replacing an
empty body is silent). -/
theorem content_replace_policy :
    (∀ (command : Command) (plugins : List BedrockPlugin) (p : BedrockPlugin),
      findClaimerPeek plugins = Except.ok (some p) →
      command.jsonContent.isEmpty = false →
      command.response.content ≠ SComposeJSONObject command.jsonContent →
      (_peekCommand command plugins).response.content =
        SComposeJSONObject command.jsonContent ∧
      (command.response.content ≠ "" →
        (Severity.warn, "Replacing existing response content in " ++ command.request.methodLine)
          ∈ (_peekCommand command plugins).logs)) ∧
    (∀ (db : SQLite) (command : Command) (plugins : List BedrockPlugin),
      (_processCommand db command plugins).caught = none →
      command.jsonContent.isEmpty = false →
      command.response.content ≠ SComposeJSONObject command.jsonContent →
      (_processCommand db command plugins).response.content =
        SComposeJSONObject command.jsonContent ∧
      (command.response.content ≠ "" →
        (Severity.warn, "Replacing existing response content in " ++ command.request.methodLine)
          ∈ (_processCommand db command plugins).logs)) := by
  constructor
  · intro command plugins p hfc hc hd
    rw [peekCommand_eq_some command plugins p hfc]
    obtain ⟨h1, h2⟩ := applyContent_replace command.request
      { command.response with methodLine := "200 OK" } command.jsonContent hc hd
    exact ⟨h1, fun hne => List.mem_append_right _ (h2 hne)⟩
  · intro db command plugins h hc hd
    obtain ⟨hresp, hsub⟩ := processCommand_success_content db command plugins h
    obtain ⟨h1, h2⟩ := applyContent_replace command.request command.response
      command.jsonContent hc hd
    rw [hresp]
    exact ⟨h1, fun hne => hsub _ (h2 hne)⟩

/-- C8 witness: peek with a non-empty existing body "old" differing from
the serialization — the body is replaced and the warning is emitted. -/
theorem content_replace_policy_witness :
    (_peekCommand cmdOverwrite [plugClaim]).response.content =
      SComposeJSONObject cmdOverwrite.jsonContent ∧
    (Severity.warn, "Replacing existing response content in " ++ cmdOverwrite.request.methodLine)
      ∈ (_peekCommand cmdOverwrite [plugClaim]).logs := by
  obtain ⟨h1, h2⟩ := content_replace_policy.1 cmdOverwrite [plugClaim] plugClaim
    (by decide) (by decide) (by decide)
  exact ⟨h1, h2 (by decide)⟩

/-- C9: cleanup always leaves the command holding no sub-request; when a
sub-request with an owner reference is present its owner is notified to
close it (no error), and when the owner reference is absent an error is
logged and the reference is still cleared without any close
notification. -/
theorem clean_command_spec (command : Command) :
    (_cleanCommand command).command.httpsRequest = none ∧
    (∀ req, command.httpsRequest = some req →
      (req.hasOwner = true →
        (_cleanCommand command).closed = [req] ∧ (_cleanCommand command).logs = []) ∧
      (req.hasOwner = false →
        (_cleanCommand command).closed = [] ∧
        (_cleanCommand command).logs =
          [(Severity.err, "No owner for this https request " ++ req.fullResponse.methodLine)])) := by
  rcases hreq : command.httpsRequest with _ | req
  · constructor
    · unfold _cleanCommand
      rw [hreq]
      exact hreq
    · intro r hr
      exact absurd hr (by simp)
  · by_cases ho : req.hasOwner = true
    · have heq : _cleanCommand command =
          { command := { command with httpsRequest := none }, closed := [req], logs := [] } := by
        unfold _cleanCommand
        rw [hreq]
        simp [ho]
      rw [heq]
      refine ⟨rfl, fun r hr => ?_⟩
      injection hr with h
      subst h
      refine ⟨fun _ => ⟨rfl, rfl⟩, fun hfo => ?_⟩
      rw [ho] at hfo
      exact absurd hfo (by simp)
    · have ho' : req.hasOwner = false := by
        cases hx : req.hasOwner
        · rfl
        · exact absurd hx ho
      have heq : _cleanCommand command =
          { command := { command with httpsRequest := none }, closed := [],
            logs := [(Severity.err,
              "No owner for this https request " ++ req.fullResponse.methodLine)] } := by
        unfold _cleanCommand
        rw [hreq]
        simp [ho]
      rw [heq]
      refine ⟨rfl, fun r hr => ?_⟩
      injection hr with h
      subst h
      refine ⟨fun hto => ?_, fun _ => ⟨rfl, rfl⟩⟩
      rw [ho'] at hto
      exact absurd hto (by simp)

/-- C9 witness: a command holding a sub-request whose owner reference is
present — the owner is notified, no error is logged, the reference is
cleared. -/
theorem clean_command_spec_witness :
    (_cleanCommand cmdWithReq).command.httpsRequest = none ∧
    (_cleanCommand cmdWithReq).closed = [reqOwned] ∧
    (_cleanCommand cmdWithReq).logs = [] := by
  have h := clean_command_spec cmdWithReq
  exact ⟨h.1, (h.2 reqOwned (by decide)).1 (by decide)⟩

/-- C10: the `UpgradeDatabase` comparison is case-insensitive: any method
identifier equal to "UpgradeDatabase" ignoring letter case takes the
schema-upgrade dispatch (every enabled plugin's upgrade hook, in
registration order, when the transaction opens), and the response status
can only be the original one or the "501" begin/prepare failures — never
"430 Unrecognized command". -/
theorem process_upgrade_case_insensitive (db : SQLite) (command : Command)
    (plugins : List BedrockPlugin)
    (hm : strToLower command.request.methodLine = strToLower "UpgradeDatabase") :
    (db.beginWillSucceed = true →
      (_processCommand db command plugins).upgraded =
        (plugins.filter (fun p => p.enabled)).map (fun p => p.name)) ∧
    ((_processCommand db command plugins).response.methodLine = command.response.methodLine ∨
     (_processCommand db command plugins).response.methodLine = "501 Failed to begin transaction" ∨
     (_processCommand db command plugins).response.methodLine = "501 Failed to prepare transaction") := by
  refine upgrade_branch db command plugins ?_
  unfold SIEquals
  rw [hm]
  simp

/-- C10 witness: the all-caps method "UPGRADEDATABASE" takes the upgrade
dispatch and cannot answer "430 Unrecognized command". -/
theorem process_upgrade_case_insensitive_witness :
    (_processCommand dbW cmdUpgradeCaps [plugClaim, plugDisabled]).upgraded =
      ([plugClaim, plugDisabled].filter (fun p => p.enabled)).map (fun p => p.name) ∧
    ((_processCommand dbW cmdUpgradeCaps [plugClaim, plugDisabled]).response.methodLine =
        cmdUpgradeCaps.response.methodLine ∨
     (_processCommand dbW cmdUpgradeCaps [plugClaim, plugDisabled]).response.methodLine =
        "501 Failed to begin transaction" ∨
     (_processCommand dbW cmdUpgradeCaps [plugClaim, plugDisabled]).response.methodLine =
        "501 Failed to prepare transaction") := by
  have h := process_upgrade_case_insensitive dbW cmdUpgradeCaps [plugClaim, plugDisabled]
    (by decide)
  exact ⟨h.1 (by decide), h.2⟩
